import Mathlib

/-!
Verification development for the libnuphase / BEACON host-side driver
(`src/beacondaq.c`).  The definitions below are a shallow embedding of the
functions of that file: machine integers become `Nat`/`Int` with explicit
masking where overflow matters, the SPI transfer batcher becomes explicit
state passing, and fallible kernel I/O becomes explicit success/failure
parameters.  Each definition carries the line numbers of the C code it
embeds.
-/

namespace Beacondaq

/-- Modelled from the spec: `BN_WORD_SIZE` lives in the missing header
`beacondaq.h`; the spec fixes SPI frames at exactly four bytes
("word size fixed at 4 bytes per transfer").  `BN_SPI_BYTES` is defined as
`BN_WORD_SIZE` (beacondaq.c line 22). -/
def BN_SPI_BYTES : Nat := 4

/-- Modelled from the spec: `BN_NUM_BUFFER` comes from the missing header;
the spec says the board has four ring buffers, numbered 0..3. -/
def BN_NUM_BUFFER : Nat := 4

/-- Modelled from the spec: `BN_NUM_CHAN` comes from the missing header; the
spec says each board samples eight analog channels. -/
def BN_NUM_CHAN : Nat := 8

/-- Register addresses from the `beacon_register_t` enum
(beacondaq.c lines 48-120); only those the claims need. -/
def REG_EVENT_COUNTER_LOW : Nat := 0x0a

def REG_EVENT_COUNTER_HIGH : Nat := 0x0b

def REG_TRIG_COUNTER_LOW : Nat := 0x0c

def REG_TRIG_COUNTER_HIGH : Nat := 0x0d

def REG_TRIG_TIME_LOW : Nat := 0x0e

def REG_TRIG_TIME_HIGH : Nat := 0x0f

def REG_DEADTIME : Nat := 0x10

def REG_TRIG_INFO : Nat := 0x11

def REG_CH_MASKS : Nat := 0x12

def REG_LAST_BEAM : Nat := 0x14

def REG_SYNC : Nat := 0x27

def REG_ATTEN_012 : Nat := 0x32

def REG_ATTEN_345 : Nat := 0x33

def REG_ATTEN_67 : Nat := 0x34

def REG_ADC_DELAYS : Nat := 0x38

def REG_SET_READ_REG : Nat := 0x6d

def REG_RESET_COUNTER : Nat := 0x7e

/-- One four-byte SPI frame `[address_or_opcode, byte2, byte1, byte0]`;
field `fi` is C array element `buf[i]`. -/
structure SpiFrame where
  f0 : Nat
  f1 : Nat
  f2 : Nat
  f3 : Nat
deriving DecidableEq

/-- `static uint8_t buf_sync_on[] = {REG_SYNC,0,0,1}` (line 268). -/
def buf_sync_on : SpiFrame := ⟨REG_SYNC, 0, 0, 1⟩

/-- `static uint8_t buf_sync_off[] = {REG_SYNC,0,0,0}` (line 269). -/
def buf_sync_off : SpiFrame := ⟨REG_SYNC, 0, 0, 0⟩

/-- `static uint8_t buf_reset_counter[] = {REG_RESET_COUNTER,0,0,1}` (line 272). -/
def buf_reset_counter : SpiFrame := ⟨REG_RESET_COUNTER, 0, 0, 1⟩

/-- `buf_set_read_reg[i] = {REG_SET_READ_REG,0,0,i}` (fillBuffers, lines 291-296). -/
def buf_set_read_reg (address : Nat) : SpiFrame := ⟨REG_SET_READ_REG, 0, 0, address⟩

/-! ## C10: beacon_write (lines 1725-1734)

```c
int beacon_write(beacon_dev_t *d, const uint8_t* buffer)
{
  int written = 0;
  written = do_write(d->fd[0], buffer);
  if (d->fd[1])
  written += do_write(d->fd[1], buffer);
  return written == d->fd[1] ? 2 * BN_SPI_BYTES : BN_SPI_BYTES ? 0 : -1;
}
```
The C conditional operator is right-associative, so the return parses as
`(written == d->fd[1]) ? (2*BN_SPI_BYTES) : (BN_SPI_BYTES ? 0 : -1)`.
`w_master` and `w_slave` are the values returned by the two `write` calls. -/

def beacon_write (fd1 w_master w_slave : Int) : Int :=
  let written : Int := w_master + (if fd1 ≠ 0 then w_slave else 0)
  if written = fd1 then 2 * (BN_SPI_BYTES : Int)
  else if (BN_SPI_BYTES : Int) ≠ 0 then 0 else -1

/-! ## C9: process-wide board-id counter (lines 661, 812-816)

```c
static int board_id_counter =1;
void beacon_set_board_id(beacon_dev_t * d, uint8_t id, beacon_which_board_t which)
{
  if (id <= board_id_counter) board_id_counter = id+1;
  d->board_id[which] = id;
}
```
-/

/-- Initial value of `board_id_counter` (line 661). -/
def board_id_counter_init : Int := 1

/-- The effect of `beacon_set_board_id` on `board_id_counter`
(lines 812-816); `id` is a `uint8_t`. -/
def set_board_id_counter (counter : Int) (id : Nat) : Int :=
  if (id : Int) ≤ counter then (id : Int) + 1 else counter

/-! ## C8: beacon_open handle initialization (lines 728-764) and the wait
poll branch (lines 980-989). -/

/-- The handle fields of `struct beacon_dev` that `beacon_open` initializes
and that the claims need. -/
structure DevInit where
  poll_interval : Nat
  spi_clock : Nat
  cancel_wait : Nat
  event_counter : Nat
  next_read_buffer : Nat
  cs_change : Nat
  delay_us : Nat
  buffer_length : Nat

/-- `memset(dev, 0, sizeof(*dev))` (line 730) restricted to the modelled
fields. -/
def DevInit.memset_zero (_d : DevInit) : DevInit := ⟨0, 0, 0, 0, 0, 0, 0, 0⟩

/-- `#define SPI_CLOCK 20000000` (line 40). -/
def SPI_CLOCK : Nat := 20000000

/-- The field-initialization sequence of `beacon_open` (lines 728-764), in
source order, restricted to the modelled fields.  Note that the
`dev->poll_interval = 500` assignment (line 729) comes BEFORE the
`memset(dev,0,sizeof(*dev))` (line 730), and `poll_interval` is never
assigned again. -/
def beacon_open_init (d : DevInit) : DevInit :=
  let d := { d with poll_interval := 500 }
  let d := d.memset_zero
  let d := { d with spi_clock := SPI_CLOCK }
  let d := { d with cancel_wait := 0 }
  let d := { d with event_counter := 0 }
  let d := { d with next_read_buffer := 0 }
  let d := { d with cs_change := 0 }
  let d := { d with delay_us := 0 }
  let d := { d with buffer_length := 624 }
  d

/-- What `beacon_wait` does between polls. -/
inductive PollAction where
  | usleep (usecs : Nat)
  | yieldCpu
deriving DecidableEq

/-- The branch taken between polls in `beacon_wait` (lines 980-989):
`if (d->poll_interval) usleep(d->poll_interval); else sched_yield();`. -/
def wait_poll_action (poll_interval : Nat) : PollAction :=
  if poll_interval ≠ 0 then .usleep poll_interval else .yieldCpu

/-! ## C4: the elapsed-time accumulation of the beacon_wait poll loop
(lines 991-996)

```c
struct timespec now;
clock_gettime(CLOCK_REALTIME, &now);
waited = (now.tv_sec - start.tv_nsec) * 1e-9f  * (now.tv_nsec - start.tv_nsec);
```
(`start` was read from CLOCK_MONOTONIC at loop entry, line 969.)  The
computation is modelled over `ℚ`; the structural divergence (a product of
mixed-unit differences instead of a sum) is independent of floating-point
rounding. -/

def wait_elapsed_code (start_sec start_nsec now_sec now_nsec : ℚ) : ℚ :=
  (now_sec - start_nsec) * (1 / 1000000000) * (now_nsec - start_nsec)

/-- The elapsed time the claim describes: the seconds difference plus 1e-9
times the nanoseconds difference. -/
def wait_elapsed_claim (start_sec start_nsec now_sec now_nsec : ℚ) : ℚ :=
  (now_sec - start_sec) + (now_nsec - start_nsec) * (1 / 1000000000)

/-! ## C5: buffer_send (lines 360-373)

```c
static int buffer_send(beacon_dev_t * d, beacon_which_board_t which)
{
  int wrote;
  if (!d->nused[which]) return 0;
  wrote = do_xfer(d->fd[which], d->nused[which], d->buf[which]);
  if (wrote < d->nused[which] * BN_SPI_BYTES)
  {
    fprintf(stderr,"IOCTL failed! returned: %d\n",wrote);
    return -1;
  }
  d->nused[which] = 0;
  return 0;
}
```
State is the used-entry count `nused` for the chosen board; `wrote` is what
the `SPI_IOC_MESSAGE` ioctl returned.  Result: (return value, new nused). -/

def buffer_send (nused : Nat) (wrote : Int) : Int × Nat :=
  if nused = 0 then (0, nused)
  else if wrote < (nused : Int) * (BN_SPI_BYTES : Int) then (-1, nused)
  else (0, 0)

/-! ## C6: reverse_bits / reverse_buf_bits and the attenuator paths
(lines 1177-1199, 1204-1311) -/

/-- `reverse_bits`, portable version (lines 1177-1191):
`out = 0; for i in 0..7: if (in & (1<<i)) out |= 1 << (7-i);`. -/
def reverse_bits (input : Nat) : Nat :=
  (List.range 8).foldl
    (fun out i => if input &&& (1 <<< i) ≠ 0 then out ||| (1 <<< (7 - i)) else out) 0

/-- `reverse_buf_bits` (lines 1193-1199):

```c
void reverse_buf_bits(uint8_t * buf)
{
  reverse_bits(buf[3]);
  reverse_bits(buf[2]);
  reverse_bits(buf[1]);
}
```
The three `reverse_bits` calls discard their return values; no byte of the
buffer is ever assigned, so the buffer is returned unchanged. -/
def reverse_buf_bits (buf : SpiFrame) : SpiFrame :=
  let _ := reverse_bits buf.f3
  let _ := reverse_bits buf.f2
  let _ := reverse_bits buf.f1
  buf

/-- The three attenuator frames `beacon_set_attenuation` queues for the
master board (lines 1207-1220): the frames are built from the caller's
bytes `a 0 .. a 7` and passed through `reverse_buf_bits` before being
appended to the transfer list. -/
def beacon_set_attenuation_master_frames (a : Nat → Nat) : List SpiFrame :=
  let attenuation_012 : SpiFrame := ⟨REG_ATTEN_012, a 2, a 1, a 0⟩
  let attenuation_345 : SpiFrame := ⟨REG_ATTEN_345, a 5, a 4, a 3⟩
  let attenuation_067 : SpiFrame := ⟨REG_ATTEN_67, 0, a 7, a 6⟩
  [reverse_buf_bits attenuation_012,
   reverse_buf_bits attenuation_345,
   reverse_buf_bits attenuation_067]

/-- The eight attenuation bytes `beacon_get_attenuation` returns for the
master board (lines 1255-1280), given the three response frames read from
the device: `reverse_buf_bits` is applied to each response, then bytes
3,2,1 are copied out. -/
def beacon_get_attenuation_master (r012 r345 r067 : SpiFrame) : List Nat :=
  let a012 := reverse_buf_bits r012
  let a345 := reverse_buf_bits r345
  let a067 := reverse_buf_bits r067
  [a012.f3, a012.f2, a012.f1, a345.f3, a345.f2, a345.f1, a067.f3, a067.f2]

/-! ## C2: transfer batcher and synchronized_command (lines 29-30, 360-455)

`#define NBD(d) (1)` (line 30, comment "master"): the number of boards is
hard-coded to 1 in beacondaq.c, independent of whether a slave device was
opened. -/

/-- `#define NBD(d) (1)` (beacondaq.c lines 29-30). -/
def NBD : Nat := 1

/-- Which board a transfer goes to (`beacon_which_board_t`). -/
inductive Board where
  | master
  | slave
deriving DecidableEq

/-- One batched SPI transfer.  Only the tx frame matters for wire ordering
(the rx pointer receives the response into caller storage), so a transfer
is `some txframe` for a write and `none` for a pure read
(`tx_buf = 0`). -/
abbrev Xfer := Option SpiFrame

/-- Trace-level state of the per-board transfer lists (`d->buf`/`d->nused`)
plus the sequence of (board, transfer) records handed to the kernel, in
order. -/
structure BatchState where
  pending_master : List Xfer
  pending_slave : List Xfer
  trace : List (Board × Xfer)
deriving DecidableEq

/-- `buffer_append` (lines 378-393), trace level: add the transfer to the
board's list.  (The auto-flush-when-full path is not taken by any sequence
modelled here: `synchronized_command` queues at most four transfers.) -/
def BatchState.append (s : BatchState) (which : Board) (tx : Xfer) : BatchState :=
  match which with
  | .master => { s with pending_master := s.pending_master ++ [tx] }
  | .slave => { s with pending_slave := s.pending_slave ++ [tx] }

/-- `buffer_send` (lines 360-373), trace level: the board's pending
transfers are issued to the kernel in list order as one multi-transfer
ioctl and the list is reset. -/
def BatchState.send (s : BatchState) (which : Board) : BatchState :=
  match which with
  | .master =>
      { s with pending_master := [],
               trace := s.trace ++ s.pending_master.map (fun x => (Board.master, x)) }
  | .slave =>
      { s with pending_slave := [],
               trace := s.trace ++ s.pending_slave.map (fun x => (Board.slave, x)) }

/-- `append_read_register` (lines 395-401): queue
`SET_READ_REG(address)` then a pure-read transfer. -/
def BatchState.append_read_register (s : BatchState) (which : Board) (address : Nat) :
    BatchState :=
  (s.append which (some (buf_set_read_reg address))).append which none

/-- The multi-board branch of `synchronized_command` (lines 428-455):
sync-on to master and flush; command to slave and flush; command then
sync-off to master and flush; optionally read a register back from each
board.  Under `NBD = 1` this branch is dead code. -/
def synchronized_command_multi (cmd : SpiFrame) (reg_to_read_after : Option Nat)
    (s : BatchState) : BatchState :=
  let s := s.append .master (some buf_sync_on)
  let s := s.send .master
  let s := s.append .slave (some cmd)
  let s := s.send .slave
  let s := s.append .master (some cmd)
  let s := s.append .master (some buf_sync_off)
  let s := s.send .master
  match reg_to_read_after with
  | none => s
  | some r =>
      let s := s.append_read_register .master r
      let s := s.append_read_register .slave r
      let s := s.send .slave
      s.send .master

/-- `synchronized_command` (lines 410-455).  `reg_to_read_after = 0` in C is
`none` here.  Because `NBD(d) < 2` always holds (`NBD` is the constant 1),
the function always takes the single-board path of lines 414-426: queue the
command (and the optional read-back) on the master and flush. -/
def synchronized_command (cmd : SpiFrame) (reg_to_read_after : Option Nat)
    (s : BatchState) : BatchState :=
  if NBD < 2 then
    let s := s.append .master (some cmd)
    let s := match reg_to_read_after with
             | none => s
             | some r => s.append_read_register .master r
    s.send .master
  else
    synchronized_command_multi cmd reg_to_read_after s

/-- An empty transfer-batcher state (fresh handle, nothing pending). -/
def empty_batch : BatchState := ⟨[], [], []⟩

/-! ## C7: the per-ADC delay writes of the accepted ADC-alignment attempt
(beacon_reset, lines 2109-2131)

```c
for (ibd = 0; ibd < NBD(d); ibd++)
{
  for (iadc = 0; iadc < BN_NUM_CHAN/2; iadc++)
  {
    if (((1 << 2*iadc) & d->channel_read_mask[ibd])  == 0) continue;
    uint8_t delay  = (max_i[ibd][2*iadc] + max_i[ibd][2*iadc+1]- 2*min_max_i)/2;
    if (delay > 0)
    {
      uint8_t buf[BN_SPI_BYTES] = {REG_ADC_DELAYS + iadc, 0,
                                   (delay & 0xf) | (1 << 4),
                                   (delay & 0xf) | (1 << 4) };
      wrote = do_write(d->fd[ibd], buf);
      ...
    }
  }
}
```
With `NBD = 1` only the master board is processed.  The C computation is in
`int` then cast to `uint8_t` (hence the `% 256`); for peaks below
`min_max_i` the C cast wraps a negative value while `Nat` subtraction
truncates — the two agree whenever `min_max_i ≤ ` both peaks, which holds
for every channel that participated in the minimum.  A failed `do_write`
merely skips to the next ADC, so the frame list below is what is written
when the writes succeed. -/

/-- The list of per-ADC delay frames written on an accepted alignment
attempt, master board, given the channel read mask, the per-channel peak
indices `max_i` and the minimum peak index `min_max_i`. -/
def adc_delay_writes (channel_read_mask : Nat) (max_i : Nat → Nat) (min_max_i : Nat) :
    List SpiFrame :=
  (List.range (BN_NUM_CHAN / 2)).filterMap (fun iadc =>
    if channel_read_mask &&& (1 <<< (2 * iadc)) = 0 then none
    else
      let delay := ((max_i (2 * iadc) + max_i (2 * iadc + 1) - 2 * min_max_i) / 2) % 256
      if delay > 0 then
        some ⟨REG_ADC_DELAYS + iadc, 0,
              (delay &&& 0xf) ||| (1 <<< 4), (delay &&& 0xf) ||| (1 <<< 4)⟩
      else none)

/-- The amended C7 claim's write list, phrased with the spec formula
`delay = (peak_idx[2k] + peak_idx[2k+1])/2 − min_peak_idx`: the delay
register of pair `k` is written, with the apply bit (bit 4) set, exactly
when the pair's even channel is enabled AND the delay is nonzero. -/
def adc_delay_writes_amended (channel_read_mask : Nat) (max_i : Nat → Nat)
    (min_max_i : Nat) : List SpiFrame :=
  (List.range (BN_NUM_CHAN / 2)).filterMap (fun k =>
    let delay := ((max_i (2 * k) + max_i (2 * k + 1)) / 2 - min_max_i) % 256
    if channel_read_mask &&& (1 <<< (2 * k)) ≠ 0 ∧ 0 < delay then
      some ⟨REG_ADC_DELAYS + k, 0,
            (delay &&& 0xf) ||| (1 <<< 4), (delay &&& 0xf) ||| (1 <<< 4)⟩
    else none)

/-- The spec's S5 calibration scenario: per-channel peak indices
`[100, 101, 104, 105, 100, 102, 103, 105]` (0 beyond channel 7). -/
def s5_peaks : Nat → Nat := fun i => [100, 101, 104, 105, 100, 102, 103, 105].getD i 0

/-! ## C1 / C3: beacon_read_multiple_ptr (lines 1449-1714)

With `NBD(d) = 1` the inner board loop runs exactly once (`ibd = 0`,
master), so one iteration of the outer buffer loop is modelled as a single
function.  Register responses from the device are an oracle
`HwResponses : Nat → SpiFrame` (address ↦ response frame).  Kernel I/O
outcomes are an `IoSchedule`: the `CHK`-wrapped appends and the metadata
flush of lines 1498-1529 are `meta_flush_ok` (a `buffer_append` can fail
only when its auto-flush ioctl fails), and the waveform-streaming appends
plus the final `buffer_send` of lines 1653-1700 are `waveform_io_ok`.  The
`CHK(X)` macro (line 1444) turns any failure into `ret++; goto the_end`,
aborting the whole readout with a nonzero return. -/

/-- Device register responses: register address to four-byte response. -/
abbrev HwResponses := Nat → SpiFrame

/-- Success/failure of the kernel I/O of one buffer iteration. -/
structure IoSchedule where
  meta_flush_ok : Bool
  waveform_io_ok : Bool
deriving DecidableEq

/-- Reassembly of a 32-bit register value from a response frame: the raw
bytes land in a `uint32_t` on the little-endian host and `be32toh`
byte-swaps, giving `buf[0]<<24 | buf[1]<<16 | buf[2]<<8 | buf[3]` (the echo
of the address ends up in the top byte and is stripped by the
`& 0xffffff` masks at the use sites). -/
def be32_of_frame (f : SpiFrame) : Nat := ((f.f0 * 256 + f.f1) * 256 + f.f2) * 256 + f.f3

/-- `__builtin_ctz` restricted to 4-bit buffer masks (the argument at line
1483 is the nonempty ready mask). -/
def ctz (n : Nat) : Nat := ((List.range 4).find? (fun i => n &&& (1 <<< i) != 0)).getD 0

/-- `__builtin_popcount` restricted to the 8-bit `beacon_buffer_mask_t`. -/
def popcount (n : Nat) : Nat := (List.range 8).countP (fun i => n &&& (1 <<< i) != 0)

/-- The fields of `beacon_header_t` assembled by the master-board pass of
`beacon_read_multiple_ptr` that the claims need (wall-clock fields —
`readout_time`, `approx_trigger_time` — are external clock reads and are
omitted).  Fields the C code has not yet assigned are 0 here. -/
structure Header where
  sync_problem : Nat
  buffer_number : Nat
  event_number : Nat
  trig_number : Nat
  trig_time : Nat
  triggered_beams : Nat
  gate_flag : Nat
  buffer_mask : Nat
  trig_type : Nat
  calpulser : Nat
  channel_mask : Nat
  trig_pol : Nat
deriving DecidableEq

/-- The mutable handle fields `beacon_read_multiple_ptr` touches (the
mode/buffer caches only suppress redundant frames and are omitted). -/
structure DevState where
  event_counter : Nat
  next_read_buffer : Nat
  readout_number_offset : Nat
  buffer_length : Nat
deriving DecidableEq

/-- One iteration of the outer buffer loop of `beacon_read_multiple_ptr`
(lines 1470-1705), `NBD = 1`.  Result: `(ret, new state, header, drained)`
where `ret` is this iteration's contribution to the return value (nonzero
aborts the readout via `goto the_end`) and `drained` records whether the
iteration reached `mark_buffers_done` (line 1703, whose own return value
the C code discards). -/
def read_one_buffer (d : DevState) (mask : Nat) (hw : HwResponses) (io : IoSchedule) :
    Nat × DevState × Header × Bool :=
  let ibuf := d.next_read_buffer
  let hd0 : Header := ⟨0, 0, 0, 0, 0, 0, 0, 0, 0, 0, 0, 0⟩
  if mask &&& (1 <<< ibuf) = 0 then
    -- lines 1479-1486: "Sync issue?": reset the cursor to the lowest set
    -- bit of the mask and break out of the board loop; mark_buffers_done
    -- then runs on the new ibuf
    (0, { d with next_read_buffer := ctz mask }, hd0, true)
  else
    -- lines 1493-1497: on the master pass, bump the software event counter
    -- and advance the cursor BEFORE any data is read
    let d := { d with event_counter := d.event_counter + 1,
                      next_read_buffer := (d.next_read_buffer + 1) % BN_NUM_BUFFER }
    -- lines 1498-1529: buffer select plus the batched metadata register
    -- reads, flushed by CHK(buffer_send(d,ibd))
    if !io.meta_flush_ok then (1, d, hd0, false)
    else
      let event_counter_low := be32_of_frame (hw REG_EVENT_COUNTER_LOW) &&& 0xffffff
      let event_counter_high := be32_of_frame (hw REG_EVENT_COUNTER_HIGH) &&& 0xffffff
      let trig_counter_low := be32_of_frame (hw REG_TRIG_COUNTER_LOW) &&& 0xffffff
      let trig_counter_high := be32_of_frame (hw REG_TRIG_COUNTER_HIGH) &&& 0xffffff
      let trig_time_low := be32_of_frame (hw REG_TRIG_TIME_LOW) &&& 0xffffff
      let trig_time_high := be32_of_frame (hw REG_TRIG_TIME_HIGH) &&& 0xffffff
      let tinfo := be32_of_frame (hw REG_TRIG_INFO)
      let tmask := be32_of_frame (hw REG_CH_MASKS)
      let last_beam := be32_of_frame (hw REG_LAST_BEAM)
      let big_event_counter := event_counter_low + event_counter_high * 2 ^ 24
      -- lines 1553-1557: an event-counter mismatch only prints a warning
      -- lines 1564-1570: hardware buffer index check
      let hwbuf := (tinfo >>> 22) &&& 0x3
      let hd := if hwbuf ≠ ibuf then { hd0 with sync_problem := hd0.sync_problem ||| 1 }
                else hd0
      -- lines 1573-1616: header assembly (master-only block; the slave
      -- cross-checks of lines 1618-1647 are dead under NBD = 1)
      let hd := { hd with
        trig_time := trig_time_low + trig_time_high * 2 ^ 24,
        event_number := d.readout_number_offset + big_event_counter,
        trig_number := trig_counter_low + trig_counter_high * 2 ^ 24,
        triggered_beams := last_beam &&& 0xffffff,
        buffer_number := hwbuf,
        gate_flag := (tmask >>> 23) &&& 1,
        buffer_mask := mask,
        trig_type := (tinfo >>> 15) &&& 0x3,
        calpulser := (tinfo >>> 21) &&& 0x1,
        channel_mask := (tmask >>> 15) &&& 0xff,
        trig_pol := tinfo &&& 0xf }
      -- lines 1653-1700: per-channel waveform streaming and final flush
      if !io.waveform_io_ok then (1, d, hd, false)
      else
        -- line 1703: mark_buffers_done(d, 1 << ibuf); its result is discarded
        (0, d, hd, true)

/-- The outer loop of `beacon_read_multiple_ptr`: `n` remaining iterations
of `for (iibuf = 0; iibuf < __builtin_popcount(mask); iibuf++)`, with
per-iteration device responses `hw` and I/O outcomes `io` indexed by
`iibuf`.  A nonzero per-iteration `ret` is `goto the_end`: the function
returns immediately with that value. -/
def read_buffers_go (hw : Nat → HwResponses) (io : Nat → IoSchedule) (mask : Nat) :
    Nat → Nat → DevState → List Header → Nat × DevState × List Header
  | 0, _, d, acc => (0, d, acc)
  | n + 1, iibuf, d, acc =>
      let r := read_one_buffer d mask (hw iibuf) (io iibuf)
      if r.1 ≠ 0 then (r.1, r.2.1, acc ++ [r.2.2.1])
      else read_buffers_go hw io mask n (iibuf + 1) r.2.1 (acc ++ [r.2.2.1])

/-- `beacon_read_multiple_ptr` (lines 1449-1714), `NBD = 1`: read
`popcount mask` buffers.  Result: (return value, final device state, the
headers written). -/
def beacon_read_multiple_ptr (d : DevState) (mask : Nat) (hw : Nat → HwResponses)
    (io : Nat → IoSchedule) : Nat × DevState × List Header :=
  read_buffers_go hw io mask (popcount mask) 0 d []

/-! # Theorems -/

/-- C10: beacon_write never returns -1: for every call, its return value is
2 * BN_SPI_BYTES exactly when the total number of bytes written by the
underlying write calls equals the numeric value of the slave file
descriptor, and 0 otherwise, so an I/O failure of the underlying writes is
never reported as -1 to the caller. -/
theorem beacon_write_return_value (fd1 w_master w_slave : Int) :
    beacon_write fd1 w_master w_slave ≠ -1 ∧
    (beacon_write fd1 w_master w_slave = 2 * (BN_SPI_BYTES : Int) ↔
      w_master + (if fd1 ≠ 0 then w_slave else 0) = fd1) ∧
    (w_master + (if fd1 ≠ 0 then w_slave else 0) ≠ fd1 →
      beacon_write fd1 w_master w_slave = 0) := by
  unfold beacon_write BN_SPI_BYTES
  split_ifs <;> simp_all <;> omega

/-- Witness for C10's theorem at fd1 = 3, master write returning 4, slave
write returning 0: the total (4) differs from the slave fd (3), so the
call returns 0. -/
theorem beacon_write_return_value_witness :
    ((4 : Int) + (if (3 : Int) ≠ 0 then 0 else 0) ≠ 3) ∧ beacon_write 3 4 0 = 0 :=
  ⟨by decide, (beacon_write_return_value 3 4 0).2.2 (by decide)⟩

/-- C9 counterexample: with the process-wide counter at 10 (reachable after
nine single-board opens), beacon_set_board_id with id = 3 moves the counter
backward to 4, refuting "greater than or equal to its value before". -/
theorem set_board_id_counter_moves_backward :
    set_board_id_counter 10 3 = 4 ∧ set_board_id_counter 10 3 < 10 := by decide

/-- C9 (amended): the counter starts at 1; beacon_set_board_id sets the
counter to id + 1 whenever id ≤ counter and leaves it unchanged otherwise,
so the call leaves the counter ≥ its old value exactly when id ≥ counter−1,
and whenever the counter does move backward its new value is id + 1. -/
theorem set_board_id_counter_update (c : Int) (id : Nat) :
    board_id_counter_init = 1 ∧
    (c ≤ set_board_id_counter c id ↔ c - 1 ≤ (id : Int)) ∧
    (set_board_id_counter c id < c → set_board_id_counter c id = (id : Int) + 1) := by
  refine ⟨rfl, ?_, ?_⟩ <;> unfold set_board_id_counter <;> split_ifs <;> omega

/-- Witness for C9's amended theorem at counter = 10, id = 3: the counter
moves backward, and its new value is 3 + 1. -/
theorem set_board_id_counter_update_witness :
    set_board_id_counter 10 3 < 10 ∧ set_board_id_counter 10 3 = (3 : Int) + 1 :=
  ⟨by decide, (set_board_id_counter_update 10 3).2.2 (by decide)⟩

/-- C8 (code bug): after beacon_open's initialization the poll interval is
0, not the default 500 µs: the memset at line 730 runs after the
`dev->poll_interval = 500` at line 729 and zeroes it, so beacon_wait
yields the CPU between polls instead of sleeping 500 µs. -/
theorem open_leaves_poll_interval_zero (d : DevInit) :
    (beacon_open_init d).poll_interval = 0 ∧
    (beacon_open_init d).poll_interval ≠ 500 ∧
    wait_poll_action (beacon_open_init d).poll_interval = .yieldCpu := by
  have h0 : (beacon_open_init d).poll_interval = 0 := rfl
  refine ⟨h0, ?_, rfl⟩
  rw [h0]
  decide

/-- C4 (code bug): the elapsed time accumulated by the beacon_wait poll
loop is not the seconds difference plus 1e-9 times the nanoseconds
difference: at start = 100 s + 250000000 ns and now = 101 s + 750000000 ns
the claimed formula gives 1.5 s while the code's mixed-unit product gives
−249999899/2. -/
theorem wait_elapsed_is_not_the_claimed_sum :
    wait_elapsed_claim 100 250000000 101 750000000 = 3 / 2 ∧
    wait_elapsed_code 100 250000000 101 750000000 = -249999899 / 2 ∧
    wait_elapsed_code 100 250000000 101 750000000 ≠
      wait_elapsed_claim 100 250000000 101 750000000 := by
  refine ⟨by norm_num [wait_elapsed_claim], by norm_num [wait_elapsed_code],
          by norm_num [wait_elapsed_code, wait_elapsed_claim]⟩

/-- C5 counterexample: a flush of a one-entry list whose ioctl returns 0
reports the error (-1) but leaves the used-entry count at 1, refuting "in
all cases the transfer list is reset to empty". -/
theorem buffer_send_failed_flush_keeps_list :
    buffer_send 1 0 = (-1, 1) ∧ (buffer_send 1 0).2 ≠ 0 := by decide

/-- C5 (amended): a flush whose ioctl writes fewer bytes than requested
reports -1 and leaves the used-entry count unchanged; the list is reset to
empty only when the flush succeeds (a flush of an empty list is a no-op
returning 0). -/
theorem buffer_send_characterization (nused : Nat) (wrote : Int) :
    ((buffer_send nused wrote).1 = -1 ↔
      nused ≠ 0 ∧ wrote < (nused : Int) * (BN_SPI_BYTES : Int)) ∧
    ((buffer_send nused wrote).1 = -1 → (buffer_send nused wrote).2 = nused) ∧
    ((buffer_send nused wrote).1 = 0 → (buffer_send nused wrote).2 = 0) := by
  unfold buffer_send
  split_ifs <;> simp_all

/-- Witness for C5's amended theorem at nused = 2, ioctl returning 8 (all
bytes written): the flush succeeds and the list is reset. -/
theorem buffer_send_characterization_witness :
    (buffer_send 2 8).1 = 0 ∧ (buffer_send 2 8).2 = 0 :=
  ⟨by decide, (buffer_send_characterization 2 8).2.2 (by decide)⟩

/-- C6 (code bug): reverse_buf_bits discards the results of its three
reverse_bits calls, so it is the identity on the frame; consequently both
beacon_set_attenuation and beacon_get_attenuation move the raw,
un-reversed bytes, even though reverse_bits itself would change them
(reverse_bits 0x01 = 0x80). -/
theorem reverse_buf_bits_discards_reversal :
    (∀ buf : SpiFrame, reverse_buf_bits buf = buf) ∧
    (∀ a : Nat → Nat, beacon_set_attenuation_master_frames a =
      [⟨REG_ATTEN_012, a 2, a 1, a 0⟩, ⟨REG_ATTEN_345, a 5, a 4, a 3⟩,
       ⟨REG_ATTEN_67, 0, a 7, a 6⟩]) ∧
    (∀ r012 r345 r067 : SpiFrame, beacon_get_attenuation_master r012 r345 r067 =
      [r012.f3, r012.f2, r012.f1, r345.f3, r345.f2, r345.f1, r067.f3, r067.f2]) ∧
    reverse_bits 0x01 = 0x80 ∧ reverse_bits 0x01 ≠ 0x01 := by
  exact ⟨fun _ => rfl, fun _ => rfl, fun _ _ _ => rfl, by decide, by decide⟩

/-- C2 counterexample: with a slave present, issuing the reset-counter
command through synchronized_command transmits only master:CMD — not the
claimed master:SYNC_ON, slave:CMD, master:CMD, master:SYNC_OFF — because
NBD(d) is the constant 1, so the multi-board branch is never taken. -/
theorem synchronized_command_issues_no_sync_window :
    (synchronized_command buf_reset_counter none empty_batch).trace =
      [(Board.master, some buf_reset_counter)] ∧
    (synchronized_command buf_reset_counter none empty_batch).trace ≠
      [(Board.master, some buf_sync_on), (Board.slave, some buf_reset_counter),
       (Board.master, some buf_reset_counter), (Board.master, some buf_sync_off)] := by
  decide

/-- C2 (amended): because NBD(d) is hard-coded to 1, synchronized_command
always takes the single-board path and transmits exactly master:CMD, even
when a slave device is open; the multi-board branch of lines 428-455, were
it reachable, would transmit exactly master:SYNC_ON, slave:CMD,
master:CMD, master:SYNC_OFF. -/
theorem synchronized_command_trace (cmd : SpiFrame) :
    (synchronized_command cmd none empty_batch).trace = [(Board.master, some cmd)] ∧
    (synchronized_command_multi cmd none empty_batch).trace =
      [(Board.master, some buf_sync_on), (Board.slave, some cmd),
       (Board.master, some cmd), (Board.master, some buf_sync_off)] := by
  exact ⟨rfl, rfl⟩

/-- C7 counterexample: on the spec's S5 peaks (pair 0 enabled, its delay
equal to 0) no frame is written to the pair-0 delay register 0x38 at all;
only the three nonzero delays 4, 1, 4 are written. -/
theorem adc_zero_delay_not_written :
    0xff &&& (1 <<< 0) ≠ 0 ∧
    ((s5_peaks 0 + s5_peaks 1) / 2 - 100) % 256 = 0 ∧
    (∀ f ∈ adc_delay_writes 0xff s5_peaks 100, f.f0 ≠ REG_ADC_DELAYS) ∧
    adc_delay_writes 0xff s5_peaks 100 =
      [⟨0x39, 0, 0x14, 0x14⟩, ⟨0x3a, 0, 0x11, 0x11⟩, ⟨0x3b, 0, 0x14, 0x14⟩] := by
  decide

/-- C7 (amended): on an accepted attempt, for each ADC pair whose even
channel is enabled the driver computes
delay = (peak_idx[2k] + peak_idx[2k+1])/2 − min_peak_idx and writes it,
with the apply bit (bit 4) set, into the per-ADC delay register — but only
when the delay is nonzero; a zero delay produces no write. -/
theorem adc_delay_writes_skip_zero (channel_read_mask min_max_i : Nat)
    (max_i : Nat → Nat) (h : ∀ i < 8, min_max_i ≤ max_i i) :
    adc_delay_writes channel_read_mask max_i min_max_i =
      adc_delay_writes_amended channel_read_mask max_i min_max_i := by
  unfold adc_delay_writes adc_delay_writes_amended
  apply List.filterMap_congr
  intro k hk
  have hk4 : k < BN_NUM_CHAN / 2 := List.mem_range.mp hk
  have h0 : min_max_i ≤ max_i (2 * k) := by
    refine h _ ?_
    unfold BN_NUM_CHAN at hk4
    omega
  have h1 : min_max_i ≤ max_i (2 * k + 1) := by
    refine h _ ?_
    unfold BN_NUM_CHAN at hk4
    omega
  have hdelay : (max_i (2 * k) + max_i (2 * k + 1) - 2 * min_max_i) / 2 =
      (max_i (2 * k) + max_i (2 * k + 1)) / 2 - min_max_i := by omega
  by_cases hm : channel_read_mask &&& (1 <<< (2 * k)) = 0
  · simp [hm]
  · simp [hm, hdelay]

/-- Witness for C7's amended theorem on the spec's S5 peaks, all of which
are at least the minimum 100. -/
theorem adc_delay_writes_skip_zero_witness :
    (∀ i < 8, 100 ≤ s5_peaks i) ∧
    adc_delay_writes 0xff s5_peaks 100 = adc_delay_writes_amended 0xff s5_peaks 100 :=
  ⟨by decide, adc_delay_writes_skip_zero 0xff 100 s5_peaks (by decide)⟩

/-- C1 counterexample: reading the single ready buffer 0 with the metadata
flush failing makes beacon_read_multiple_ptr return nonzero (the buffer
was not drained — mark_buffers_done was never reached) yet
next_read_buffer has advanced from 0 to 1. -/
theorem read_failure_still_advances_cursor :
    (beacon_read_multiple_ptr ⟨0, 0, 0, 624⟩ 1 (fun _ _ => ⟨0, 0, 0, 0⟩)
        (fun _ => ⟨false, true⟩)).1 ≠ 0 ∧
    (beacon_read_multiple_ptr ⟨0, 0, 0, 624⟩ 1 (fun _ _ => ⟨0, 0, 0, 0⟩)
        (fun _ => ⟨false, true⟩)).2.1.next_read_buffer = 1 := by
  decide

/-- C1 (amended): beacon_read_multiple_ptr advances next_read_buffer by one
modulo 4 at the start of processing every buffer whose bit is set in the
mask — before any data is read, and the advance is not rolled back when the
read subsequently fails; when the cursor's buffer is not in the mask the
cursor is instead reset to the lowest set bit of the mask. -/
theorem next_read_buffer_advances_eagerly (d : DevState) (mask : Nat)
    (hw : HwResponses) (io : IoSchedule) :
    (mask &&& (1 <<< d.next_read_buffer) ≠ 0 →
      (read_one_buffer d mask hw io).2.1.next_read_buffer =
        (d.next_read_buffer + 1) % BN_NUM_BUFFER) ∧
    (mask &&& (1 <<< d.next_read_buffer) = 0 →
      (read_one_buffer d mask hw io).2.1.next_read_buffer = ctz mask) := by
  unfold read_one_buffer
  constructor
  · intro hmask
    rw [if_neg hmask]
    split_ifs <;> rfl
  · intro hmask
    rw [if_pos hmask]

/-- Witness for C1's amended theorem: cursor at 0, mask 1 (bit 0 set),
metadata flush failing: the cursor still ends at (0 + 1) mod 4. -/
theorem next_read_buffer_advances_eagerly_witness :
    (1 : Nat) &&& (1 <<< (0 : Nat)) ≠ 0 ∧
    (read_one_buffer ⟨0, 0, 0, 624⟩ 1 (fun _ => ⟨0, 0, 0, 0⟩)
        ⟨false, true⟩).2.1.next_read_buffer = (0 + 1) % BN_NUM_BUFFER :=
  ⟨by decide,
   (next_read_buffer_advances_eagerly ⟨0, 0, 0, 624⟩ 1 (fun _ => ⟨0, 0, 0, 0⟩)
      ⟨false, true⟩).1 (by decide)⟩

/-- On a fully successful pass over one buffer (its mask bit set, all I/O
succeeding), the iteration reports success, reaches mark_buffers_done, and
sets sync-problem bit 0 exactly when the hardware buffer index from
trig_info bits 22-23 differs from the buffer asked for. -/
theorem read_one_buffer_ok (d : DevState) (mask : Nat) (hw : HwResponses)
    (io : IoSchedule) (hmask : mask &&& (1 <<< d.next_read_buffer) ≠ 0)
    (hmeta : io.meta_flush_ok = true) (hwave : io.waveform_io_ok = true) :
    (read_one_buffer d mask hw io).1 = 0 ∧
    (read_one_buffer d mask hw io).2.2.2 = true ∧
    (read_one_buffer d mask hw io).2.2.1.sync_problem =
      (if (be32_of_frame (hw REG_TRIG_INFO) >>> 22) &&& 0x3 ≠ d.next_read_buffer
       then 1 else 0) := by
  unfold read_one_buffer
  rw [if_neg hmask]
  simp only [hmeta, hwave, Bool.not_true, Bool.false_eq_true, if_false]
  refine ⟨trivial, trivial, ?_⟩
  split_ifs <;> rfl

/-- C3: during event readout, if the hardware buffer index extracted from
trig_info (bits 22-23) differs from the buffer the driver asked to read,
the returned header's sync_problem field has bit 0 set, and the readout
still completes and reports success (return value 0). -/
theorem desync_sets_sync_problem_bit0 (d : DevState) (hw : Nat → HwResponses)
    (io : Nat → IoSchedule) (hb : d.next_read_buffer < 4)
    (hmeta : (io 0).meta_flush_ok = true) (hwave : (io 0).waveform_io_ok = true)
    (hdesync : (be32_of_frame (hw 0 REG_TRIG_INFO) >>> 22) &&& 0x3 ≠
      d.next_read_buffer) :
    (beacon_read_multiple_ptr d (1 <<< d.next_read_buffer) hw io).1 = 0 ∧
    (beacon_read_multiple_ptr d (1 <<< d.next_read_buffer) hw io).2.2.length = 1 ∧
    ∀ h ∈ (beacon_read_multiple_ptr d (1 <<< d.next_read_buffer) hw io).2.2,
      h.sync_problem &&& 1 = 1 := by
  have hpop : popcount (1 <<< d.next_read_buffer) = 1 := by
    have hall : ∀ b < 4, popcount (1 <<< b) = 1 := by decide
    exact hall _ hb
  have hmask : (1 <<< d.next_read_buffer) &&& (1 <<< d.next_read_buffer) ≠ 0 := by
    have hall : ∀ b < 4, (1 <<< b) &&& (1 <<< b) ≠ 0 := by decide
    exact hall _ hb
  have hone := read_one_buffer_ok d (1 <<< d.next_read_buffer) (hw 0) (io 0)
    hmask hmeta hwave
  rw [if_pos hdesync] at hone
  unfold beacon_read_multiple_ptr
  rw [hpop]
  show (read_buffers_go hw io _ (0 + 1) 0 d []).1 = 0 ∧ _
  unfold read_buffers_go
  simp only [hone.1, ne_eq, not_true_eq_false, if_false, ite_false, List.nil_append]
  unfold read_buffers_go
  refine ⟨rfl, rfl, ?_⟩
  intro h hmem
  rw [List.mem_singleton] at hmem
  rw [hmem, hone.2.2]
  decide

/-- Witness for C3's theorem: cursor at buffer 0, all I/O succeeding, the
device reporting trig_info with buffer-index bits = 1 (frame byte 1 =
0x40): the read returns 0 and the single header has sync-problem bit 0
set. -/
theorem desync_sets_sync_problem_bit0_witness :
    (beacon_read_multiple_ptr ⟨0, 0, 0, 624⟩ (1 <<< (0 : Nat))
        (fun _ _ => ⟨0, 0x40, 0, 0⟩) (fun _ => ⟨true, true⟩)).1 = 0 ∧
    (beacon_read_multiple_ptr ⟨0, 0, 0, 624⟩ (1 <<< (0 : Nat))
        (fun _ _ => ⟨0, 0x40, 0, 0⟩) (fun _ => ⟨true, true⟩)).2.2.length = 1 ∧
    ∀ h ∈ (beacon_read_multiple_ptr ⟨0, 0, 0, 624⟩ (1 <<< (0 : Nat))
        (fun _ _ => ⟨0, 0x40, 0, 0⟩) (fun _ => ⟨true, true⟩)).2.2,
      h.sync_problem &&& 1 = 1 :=
  desync_sets_sync_problem_bit0 ⟨0, 0, 0, 624⟩ (fun _ _ => ⟨0, 0x40, 0, 0⟩)
    (fun _ => ⟨true, true⟩) (by decide) rfl rfl (by decide)

end Beacondaq
